import Mathlib

/-!
Verification of the GroFast resilient inter-service call primitive and its
call sites, by a shallow embedding of the relevant code into Lean.

The shared `circuit_breaker` module (CircuitBreaker, RetryConfig,
retry_with_backoff, CircuitBreakerError) is imported by the services but its
source file is not part of the repository snapshot; those components are
modelled from the specification, as marked in their doc comments.  Everything
else (the http client wrappers, the cart, order, gateway-auth and health-check
code) is translated directly from the Python sources.
-/

namespace GroFast

/-- Modelled from the spec: `RetryConfig` of the missing `circuit_breaker`
module, with fields `maxAttempts`, `baseDelay`, `maxDelay`, `multiplier`,
`jitterEnabled` (spec section 3).  Delays are rationals standing for the
float durations. -/
structure RetryConfig where
  maxAttempts : Nat
  baseDelay : ℚ
  maxDelay : ℚ
  multiplier : ℚ
  jitterEnabled : Bool
deriving DecidableEq

/-- Modelled from the spec: `delay(attempt) = min(baseDelay *
multiplier^(attempt-1), maxDelay)`, before jitter (spec section 4.2). -/
def RetryConfig.delay (cfg : RetryConfig) (attempt : Nat) : ℚ :=
  min (cfg.baseDelay * cfg.multiplier ^ (attempt - 1)) cfg.maxDelay

/-- Modelled from the spec: breaker state, `Closed | Open | HalfOpen`.
`Open` carries `openedAt`, the instant the breaker opened; `HalfOpen` is
entered when a probe is admitted, so a breaker in `HalfOpen` state is exactly
a breaker whose single probe slot is taken. -/
inductive BreakerState where
  | Closed : BreakerState
  | Open (openedAt : Nat) : BreakerState
  | HalfOpen : BreakerState
deriving DecidableEq

/-- Modelled from the spec: the `CircuitBreaker` of the missing
`circuit_breaker` module (spec sections 3 and 4.1).  Time is a natural-number
clock supplied by the caller of each transition. -/
structure CircuitBreaker where
  name : String
  failureThreshold : Nat
  recoveryTimeout : Nat
  state : BreakerState
  failureCount : Nat
deriving DecidableEq

/-- Modelled from the spec: `permitCall() -> Allowed | Rejected` (spec
section 4.1).  `true` is Allowed.  Side-effecting: admitting a probe
transitions Open to HalfOpen; a HalfOpen breaker already has its probe in
flight, so further callers are rejected. -/
def CircuitBreaker.permitCall (b : CircuitBreaker) (now : Nat) :
    CircuitBreaker × Bool :=
  match b.state with
  | .Closed => (b, true)
  | .Open openedAt =>
      if openedAt + b.recoveryTimeout ≤ now then
        ({ b with state := .HalfOpen }, true)
      else
        (b, false)
  | .HalfOpen => (b, false)

/-- Modelled from the spec: `onSuccess()` — success while Closed resets
`failureCount`; a successful probe closes the breaker and resets
`failureCount` (spec section 4.1). -/
def CircuitBreaker.onSuccess (b : CircuitBreaker) : CircuitBreaker :=
  { b with state := .Closed, failureCount := 0 }

/-- Modelled from the spec: `onFailure(kind)` for a transient failure —
Closed counts the failure and trips to Open at the threshold (failureCount
frozen on the trip); a failed probe reopens the breaker with `openedAt = now`
(spec section 4.1). -/
def CircuitBreaker.onFailure (b : CircuitBreaker) (now : Nat) :
    CircuitBreaker :=
  match b.state with
  | .Closed =>
      if b.failureThreshold ≤ b.failureCount + 1 then
        { b with state := .Open now }
      else
        { b with failureCount := b.failureCount + 1 }
  | .Open _ => b
  | .HalfOpen => { b with state := .Open now }

/-- Result of one invocation of the underlying transport operation, as seen
by the failure classifier: success, transient failure (connection error,
timeout, 5xx) or permanent failure (4xx, validation error). -/
inductive TransportResult where
  | success (v : Nat) : TransportResult
  | transient : TransportResult
  | permanent : TransportResult
deriving DecidableEq

/-- Logical outcome of a resilient call (spec section 3, Call Outcome). -/
inductive Outcome where
  | success (v : Nat) : Outcome
  | permanentFailure : Outcome
  | circuitOpen : Outcome
  | retriesExhausted : Outcome
deriving DecidableEq

/-- Modelled from the spec: one breaker-gated call without retry —
`permitCall`, then the transport operation, then `onSuccess` / `onFailure`
(permanent failures feed neither, spec section 4.1).  Returns the outcome,
the updated breaker and the number of transport invocations (0 or 1). -/
def callOnce (b : CircuitBreaker) (now : Nat) (res : TransportResult) :
    Outcome × CircuitBreaker × Nat :=
  let p := b.permitCall now
  if p.2 then
    match res with
    | .success v => (.success v, p.1.onSuccess, 1)
    | .permanent => (.permanentFailure, p.1, 1)
    | .transient => (.retriesExhausted, p.1.onFailure now, 1)
  else
    (.circuitOpen, p.1, 0)

/-- A sequence of breaker-gated calls, each given as (clock instant,
transport result were the call admitted).  Returns the final breaker and the
total number of transport invocations. -/
def runCalls (b : CircuitBreaker) : List (Nat × TransportResult) →
    CircuitBreaker × Nat
  | [] => (b, 0)
  | (t, r) :: rest =>
      let c := callOnce b t r
      let rec' := runCalls c.2.1 rest
      (rec'.1, c.2.2 + rec'.2)

/-- Modelled from the spec: the retry loop of `ResilientClient.execute`
(spec section 4.4), the composition `retry_with_backoff` around
`circuit_breaker.call` realised by `_request_with_resilience` in
`http_client.py`.  `ops attempt` is the transport result of the given
attempt, `times attempt` the clock instant of that attempt.  A rejection by
`permitCall` returns `circuitOpen` at once; a permanent result returns at
once with no breaker feedback; a transient result feeds `onFailure` and
retries while attempts remain.  Returns the outcome, the final breaker and
the number of transport invocations. -/
def executeLoop (ops : Nat → TransportResult) (times : Nat → Nat)
    (b : CircuitBreaker) (attempt : Nat) :
    Nat → Outcome × CircuitBreaker × Nat
  | 0 => (.retriesExhausted, b, 0)
  | remaining + 1 =>
      let p := b.permitCall (times attempt)
      if p.2 then
        match ops attempt with
        | .success v => (.success v, p.1.onSuccess, 1)
        | .permanent => (.permanentFailure, p.1, 1)
        | .transient =>
            let b2 := p.1.onFailure (times attempt)
            if remaining = 0 then
              (.retriesExhausted, b2, 1)
            else
              let r := executeLoop ops times b2 (attempt + 1) remaining
              (r.1, r.2.1, r.2.2 + 1)
      else
        (.circuitOpen, p.1, 0)

/-- Modelled from the spec: `execute(dependencyName, operation) -> Outcome`
(spec section 4.4), attempts numbered from 1 up to `maxAttempts`. -/
def execute (cfg : RetryConfig) (ops : Nat → TransportResult)
    (times : Nat → Nat) (b : CircuitBreaker) :
    Outcome × CircuitBreaker × Nat :=
  executeLoop ops times b 1 cfg.maxAttempts

/-- Result of `get_json` / `post_json` in `http_client.py`: either the parsed
response payload, or the literal fallback dict
(error "Service unavailable", fallback True). -/
inductive JsonResult where
  | payload (v : Nat) : JsonResult
  | fallbackDict : JsonResult
deriving DecidableEq

/-- `ResilientHttpClient.get_json` (http_client.py lines 150-157): runs the
resilient GET and catches every exception — `CircuitBreakerError`, transport
errors and `HTTPStatusError` for 4xx/5xx alike — returning the fallback
dict in all of those cases. -/
def get_json (cfg : RetryConfig) (ops : Nat → TransportResult)
    (times : Nat → Nat) (b : CircuitBreaker) : JsonResult :=
  match (execute cfg ops times b).1 with
  | .success v => .payload v
  | .permanentFailure => .fallbackDict
  | .circuitOpen => .fallbackDict
  | .retriesExhausted => .fallbackDict

/-- `ResilientHttpClient.post_json` (http_client.py lines 159-166): same
catch-all shape as `get_json`, over the resilient POST. -/
def post_json (cfg : RetryConfig) (ops : Nat → TransportResult)
    (times : Nat → Nat) (b : CircuitBreaker) : JsonResult :=
  match (execute cfg ops times b).1 with
  | .success v => .payload v
  | .permanentFailure => .fallbackDict
  | .circuitOpen => .fallbackDict
  | .retriesExhausted => .fallbackDict

/-- The lazily created module-level clients of the cart and order services.
Each allocated `CircuitBreaker(...)` constructor call is recorded as a fresh
identity paired with the breaker's `name` argument; a client field holds the
identity of its breaker once created. -/
structure ClientState where
  breakers : List (Nat × String)
  cartProductClient : Option Nat
  orderProductClient : Option Nat
deriving DecidableEq

/-- No client created yet (process start). -/
def ClientState.init : ClientState := ⟨[], none, none⟩

/-- Evaluating `CircuitBreaker(name=nm)`: a fresh breaker instance. -/
def ClientState.newBreaker (s : ClientState) (nm : String) :
    ClientState × Nat :=
  ({ s with breakers := s.breakers ++ [(s.breakers.length, nm)] },
   s.breakers.length)

/-- `CartService.get_product_client` (cart_service.py lines 20-29): on first
use builds `ResilientHttpClient(..., circuit_breaker=CircuitBreaker(name=
"ProductService"), ...)` and caches it in the class attribute; later calls
return the cached client.  Returns the breaker identity of the client. -/
def CartService.get_product_client (s : ClientState) : ClientState × Nat :=
  match s.cartProductClient with
  | some i => (s, i)
  | none =>
      let a := s.newBreaker "ProductService"
      ({ a.1 with cartProductClient := some a.2 }, a.2)

/-- `OrderService.get_product_client` (order_service.py lines 34-43): same
lazy construction, with its own class attribute and its own
`CircuitBreaker(name="ProductService")` constructor call. -/
def OrderService.get_product_client (s : ClientState) : ClientState × Nat :=
  match s.orderProductClient with
  | some i => (s, i)
  | none =>
      let a := s.newBreaker "ProductService"
      ({ a.1 with orderProductClient := some a.2 }, a.2)

/-- `needle` is an initial segment of `hay` (on character lists). -/
def charsLead : List Char → List Char → Bool
  | [], _ => true
  | _ :: _, [] => false
  | a :: as, b :: bs => a == b && charsLead as bs

/-- `needle` occurs contiguously somewhere in `hay` (on character lists). -/
def charsWithin (needle : List Char) : List Char → Bool
  | [] => charsLead needle []
  | b :: bs => charsLead needle (b :: bs) || charsWithin needle bs

/-- Python's `needle in hay` on strings. -/
def strContains (hay needle : String) : Bool :=
  charsWithin needle.toList hay.toList

/-- Payload of `CartItemCreate` (cart schema). -/
structure CartItemCreate where
  product_id : Nat
  quantity : Nat
deriving DecidableEq

/-- Cart rows as (product_id, quantity) pairs. -/
abbrev CartItems := List (Nat × Nat)

/-- The row update of `CartService.add_item`: if a row for the product
exists its quantity is increased, otherwise a new row is appended. -/
def addItemRows : CartItems → CartItemCreate → CartItems
  | [], it => [(it.product_id, it.quantity)]
  | row :: rest, it =>
      if row.1 = it.product_id then (row.1, row.2 + it.quantity) :: rest
      else row :: addItemRows rest it

/-- `CartService.add_item` (cart_service.py lines 48-86).  `productCheck` is
the outcome of `product_client.get("/products/{id}")`: `.ok code` is a
response with that status, `.error msg` an exception with message `msg`.  A
non-200 status raises HTTPException(404) inside the `try`, which the
catch-all re-raises as 404 "Product not found"; an exception whose message
contains "Circuit breaker" is swallowed and the item is added anyway; every
other exception becomes 404 "Product not found". -/
def CartService.add_item (productCheck : Except String Nat)
    (items : CartItems) (it : CartItemCreate) :
    Except (Nat × String) CartItems :=
  match productCheck with
  | .ok code =>
      if code ≠ 200 then .error (404, "Product not found")
      else .ok (addItemRows items it)
  | .error msg =>
      if strContains msg "Circuit breaker" then .ok (addItemRows items it)
      else .error (404, "Product not found")

/-- The cart snapshot returned by the cart service, as `create_order` reads
it: item rows (product_id, quantity, product_price) and the total. -/
structure CartSnapshot where
  items : List (Nat × Nat × ℚ)
  total_amount : ℚ
deriving DecidableEq

/-- The committed order row of `create_order`. -/
structure Order where
  user_id : Nat
  total_amount : ℚ
  delivery_fee : ℚ
deriving DecidableEq

/-- Result of `create_order`: the returned response or raised HTTPException,
whether the order row and its items were committed, and the warnings printed
for swallowed post-commit failures. -/
structure CreateOrderResult where
  result : Except (Nat × String) Order
  committed : Bool
  warnings : List String

/-- `OrderService.create_order` (order_service.py lines 56-124).
`cartFetch` is the outcome of `cart_client.get("/cart?...")` as status and
body; `clearCart` and `notify` are the outcomes of the post-commit
`cart_client.delete` and `notification_client.post` calls.  The in-`try`
HTTPExceptions (non-200 status, empty cart) are caught by the catch-all and
re-raised as 400 "Failed to get cart"; an exception message containing
"Circuit breaker" becomes 503.  After the commit, failures of the cart-clear
and notification calls are only printed as warnings. -/
def OrderService.create_order (user_id : Nat)
    (cartFetch : Except String (Nat × CartSnapshot))
    (clearCart : Except String Unit) (notify : Except String Unit) :
    CreateOrderResult :=
  match cartFetch with
  | .error msg =>
      if strContains msg "Circuit breaker" then
        ⟨.error (503, "Cart service temporarily unavailable"), false, []⟩
      else
        ⟨.error (400, "Failed to get cart"), false, []⟩
  | .ok (code, cart) =>
      if code ≠ 200 then ⟨.error (400, "Failed to get cart"), false, []⟩
      else if cart.items = [] then
        ⟨.error (400, "Failed to get cart"), false, []⟩
      else
        let fee : ℚ := if cart.total_amount < 199 then 20 else 0
        let order : Order := ⟨user_id, cart.total_amount, fee⟩
        let w1 := match clearCart with
          | .ok _ => []
          | .error e =>
              ["Warning: Failed to clear cart after order creation: " ++ e]
        let w2 := match notify with
          | .ok _ => []
          | .error e =>
              ["Warning: Failed to send order confirmation notification: "
                ++ e]
        ⟨.ok order, true, w1 ++ w2⟩

/-- The `firebase_id_token` value of a parsed JSON object body, as the
fallback expression `data.get('firebase_id_token', 'demo')[-8:]` treats it:
a string is sliced to its last eight characters; a JSON array is a Python
list, which the `[-8:]` slice accepts — `slicedText` carries the text the
f-string then renders for that sliced list; every other JSON value (null,
number, boolean, nested object) is not subscriptable by a slice, so the
slice raises TypeError. -/
inductive TokenValue where
  | str (s : String) : TokenValue
  | arr (slicedText : String) : TokenValue
  | other (desc : String) : TokenValue
deriving DecidableEq

/-- A valid-JSON request body as `json.loads` returns it: a JSON object
(a Python dict) with or without a `firebase_id_token` field, or a non-object
JSON value — null, array, number, boolean, string — on which
`data.get(...)` raises AttributeError. -/
inductive JsonBody where
  | obj (firebase_id_token : Option TokenValue) : JsonBody
  | nonObject (desc : String) : JsonBody
deriving DecidableEq

/-- The raw request body of a gateway auth route, as the fallback branch
`data = json.loads(body) if body else {}` sees it: empty (falsy, replaced by
the empty dict), non-empty but not valid JSON (`json.loads` raises), or
valid JSON. -/
inductive Body where
  | empty : Body
  | malformed (raw : String) : Body
  | valid (v : JsonBody) : Body
deriving DecidableEq

/-- Python `s[-8:]`: the last eight characters (the whole string when it is
shorter). -/
def lastEight (s : String) : String :=
  ⟨s.toList.drop (s.toList.length - 8)⟩

/-- The hardcoded demo/placeholder user dict of the gateway auth fallbacks
(auth.py routes), keyed by its `firebase_uid`; `fallback` is the literal
`"fallback": True` marker. -/
structure DemoUserBody where
  id : Nat
  firebase_uid : String
  email : String
  name : String
  is_active : Bool
  created_at : String
  fallback : Bool
deriving DecidableEq

/-- The demo dict all gateway auth fallbacks build, up to `firebase_uid`. -/
def demoBody (uid : String) : DemoUserBody :=
  ⟨1, uid, "demo@example.com", "Demo User", true, "2024-01-01T00:00:00Z",
   true⟩

/-- What a gateway auth route hands back: the upstream `response.json()`,
the hardcoded demo dict, or an exception the handler itself raised. -/
inductive RouteResult where
  | upstream (json : String) : RouteResult
  | demo (b : DemoUserBody) : RouteResult
  | raised (exn : String) : RouteResult
deriving DecidableEq

/-- Whether a route result is a fallback body marked `"fallback": True`. -/
def RouteResult.isFallback : RouteResult → Bool
  | .demo b => b.fallback
  | _ => false

/-! `register` (api-gateway auth.py lines 23-47): tries the auth-service
POST; on any exception it builds the demo dict from
`data = json.loads(body) if body else {}` followed by
`f"user_{data.get('firebase_id_token', 'demo')[-8:]}"`.  That fallback
construction itself raises when the non-empty body is not valid JSON
(`json.loads` raises JSONDecodeError), when the body is valid JSON but not
an object (`data.get` raises AttributeError on None, lists, numbers,
booleans and strings), or when the token value is neither a string nor a
list (the `[-8:]` slice raises TypeError); only then does a failure escape
instead of the demo body. -/

/-- The gateway `/register` handler.  `authPost` is the outcome of
`auth_client.post("/register", ...)`. -/
def register (body : Body) (authPost : Except String String) : RouteResult :=
  match authPost with
  | .ok js => .upstream js
  | .error _ =>
      match body with
      | .empty => .demo (demoBody ("user_" ++ lastEight "demo"))
      | .malformed _ => .raised "JSONDecodeError"
      | .valid (.nonObject _) => .raised "AttributeError"
      | .valid (.obj none) => .demo (demoBody ("user_" ++ lastEight "demo"))
      | .valid (.obj (some (.str s))) =>
          .demo (demoBody ("user_" ++ lastEight s))
      | .valid (.obj (some (.arr t))) => .demo (demoBody ("user_" ++ t))
      | .valid (.obj (some (.other _))) => .raised "TypeError"

/-- The gateway `/me` handler (api-gateway auth.py lines 88-113):
`stateUser` is `request.state.user` when the middleware set it; `authGet`
the outcome of `auth_client.get("/me", ...)`.  Any exception yields the
hardcoded demo dict with `firebase_uid = "demo_user"`. -/
def get_me (stateUser : Option String) (authGet : Except String String) :
    RouteResult :=
  match stateUser with
  | some u => .upstream u
  | none =>
      match authGet with
      | .ok js => .upstream js
      | .error _ => .demo (demoBody "demo_user")

/-- Outcome of one registered health-check function: the `status` string of
the `HealthCheckResult` it returned, or the message of the exception it
raised. -/
inductive CheckOutcome where
  | ok (status : String) : CheckOutcome
  | exn (msg : String) : CheckOutcome
deriving DecidableEq

/-- The basic-check loop body of `run_all_checks` (health_checks.py lines
190-205): any non-"healthy" result or raised exception downgrades the
overall status to "degraded". -/
def checkStep (acc : String) (c : CheckOutcome) : String :=
  match c with
  | .ok st => if st ≠ "healthy" then "degraded" else acc
  | .exn _ => "degraded"

/-- The dependency-check loop body of `run_all_checks` (health_checks.py
lines 208-223): an "unhealthy" result or a raised exception downgrades the
overall status to "degraded" (a "degraded" dependency result leaves it). -/
def depStep (acc : String) (c : CheckOutcome) : String :=
  match c with
  | .ok st => if st = "unhealthy" then "degraded" else acc
  | .exn _ => "degraded"

/-- The overall `"status"` field computed by `HealthChecker.run_all_checks`
(health_checks.py lines 179-225): starts at "healthy" and is folded over the
registered basic checks then the dependency checks. -/
def run_all_checks (checks deps : List CheckOutcome) : String :=
  deps.foldl depStep (checks.foldl checkStep "healthy")

/-- The `/health/ready` handler `readiness_check` (health_checks.py lines
256-269): ready when the overall status is "healthy" or "degraded",
otherwise HTTP 503 with detail status "not_ready". -/
def readiness_check (checks deps : List CheckOutcome) :
    Except (Nat × String) String :=
  if run_all_checks checks deps ∈ (["healthy", "degraded"] : List String)
  then .ok "ready"
  else .error (503, "not_ready")

/-! ## Helper lemmas -/

/-- A rejected `permitCall` leaves the breaker untouched. -/
lemma permitCall_rejected_eq (b : CircuitBreaker) (now : Nat)
    (h : (b.permitCall now).2 = false) : (b.permitCall now).1 = b := by
  unfold CircuitBreaker.permitCall at h ⊢
  cases hs : b.state with
  | Closed => simp [hs] at h
  | Open t =>
      simp only [hs] at h ⊢
      by_cases ht : t + b.recoveryTimeout ≤ now
      · simp [ht] at h
      · simp [ht]
  | HalfOpen => simp only [hs]

/-- `permitCall` never touches `failureCount`. -/
lemma permitCall_failureCount (b : CircuitBreaker) (now : Nat) :
    (b.permitCall now).1.failureCount = b.failureCount := by
  unfold CircuitBreaker.permitCall
  cases b.state with
  | Closed => rfl
  | Open t =>
      by_cases ht : t + b.recoveryTimeout ≤ now
      · simp [ht]
      · simp [ht]
  | HalfOpen => rfl

/-- In the `Closed` state `permitCall` is the identity and allows. -/
lemma permitCall_closed (b : CircuitBreaker) (now : Nat)
    (h : b.state = .Closed) : b.permitCall now = (b, true) := by
  unfold CircuitBreaker.permitCall
  rw [h]

/-- The fold of the basic-check loop keeps the overall status inside
\x7b"healthy", "degraded"\x7d. -/
lemma foldl_checkStep_mem (l : List CheckOutcome) :
    ∀ acc, acc = "healthy" ∨ acc = "degraded" →
      l.foldl checkStep acc = "healthy" ∨ l.foldl checkStep acc = "degraded" := by
  induction l with
  | nil => intro acc h; simpa using h
  | cons c t ih =>
      intro acc h
      refine ih (checkStep acc c) ?_
      cases c with
      | ok st =>
          unfold checkStep
          by_cases hst : st ≠ "healthy"
          · simp [hst]
          · simpa [hst] using h
      | exn m => simp [checkStep]

/-- The fold of the dependency-check loop keeps the overall status inside
\x7b"healthy", "degraded"\x7d. -/
lemma foldl_depStep_mem (l : List CheckOutcome) :
    ∀ acc, acc = "healthy" ∨ acc = "degraded" →
      l.foldl depStep acc = "healthy" ∨ l.foldl depStep acc = "degraded" := by
  induction l with
  | nil => intro acc h; simpa using h
  | cons c t ih =>
      intro acc h
      refine ih (depStep acc c) ?_
      cases c with
      | ok st =>
          unfold depStep
          by_cases hst : st = "unhealthy"
          · simp [hst]
          · simpa [hst] using h
      | exn m => simp [depStep]

/-! ## Claims -/

/-- C6: for every retry configuration with multiplier > 1 (durations being
nonnegative, spec section 6) and every attempt index i ≥ 1, the pre-jitter
delay equals min(baseDelay * multiplier^(i-1), maxDelay); it is monotonically
non-decreasing in the attempt index and never exceeds maxDelay. -/
theorem retry_delay_monotone_bounded (cfg : RetryConfig) (i : Nat)
    (hmul : 1 < cfg.multiplier) (hbase : 0 ≤ cfg.baseDelay) (hi : 1 ≤ i) :
    cfg.delay i = min (cfg.baseDelay * cfg.multiplier ^ (i - 1)) cfg.maxDelay
      ∧ cfg.delay i ≤ cfg.delay (i + 1)
      ∧ cfg.delay i ≤ cfg.maxDelay := by
  refine ⟨rfl, ?_, min_le_right _ _⟩
  unfold RetryConfig.delay
  refine min_le_min ?_ le_rfl
  refine mul_le_mul_of_nonneg_left ?_ hbase
  refine pow_le_pow_right₀ (le_of_lt hmul) ?_
  omega

/-- Witness for C6 at maxAttempts=3, baseDelay=1/2, maxDelay=60,
multiplier=2, attempt 1. -/
theorem retry_delay_monotone_bounded_witness :
    (1 : ℚ) < 2 ∧ (0 : ℚ) ≤ 1/2 ∧ (1 : Nat) ≤ 1 ∧
    ((⟨3, 1/2, 60, 2, true⟩ : RetryConfig).delay 1 =
        min ((1/2 : ℚ) * 2 ^ (1 - 1 : Nat)) 60
      ∧ (⟨3, 1/2, 60, 2, true⟩ : RetryConfig).delay 1 ≤
        (⟨3, 1/2, 60, 2, true⟩ : RetryConfig).delay 2
      ∧ (⟨3, 1/2, 60, 2, true⟩ : RetryConfig).delay 1 ≤ 60) :=
  ⟨by norm_num, by norm_num, le_refl 1,
   retry_delay_monotone_bounded ⟨3, 1/2, 60, 2, true⟩ 1 (by norm_num)
     (by norm_num) (le_refl 1)⟩

/-- C10: `HealthChecker.run_all_checks` only ever reports overall status
"healthy" or "degraded", whatever the registered checks and dependency
checks return or raise; hence the 503 branch of the `/health/ready`
handler is unreachable and readiness always answers "ready". -/
theorem run_all_checks_never_not_ready (checks deps : List CheckOutcome) :
    (run_all_checks checks deps = "healthy" ∨
     run_all_checks checks deps = "degraded") ∧
    readiness_check checks deps = .ok "ready" := by
  have h : run_all_checks checks deps = "healthy" ∨
      run_all_checks checks deps = "degraded" :=
    foldl_depStep_mem deps _ (foldl_checkStep_mem checks "healthy" (Or.inl rfl))
  refine ⟨h, ?_⟩
  unfold readiness_check
  rcases h with h | h <;> simp [h]

/-- C1: if the circuit breaker rejects the call (`permitCall` answers
Rejected), the resilient call returns the `CircuitOpen` outcome immediately,
the transport operation is never invoked (invocation count 0), the breaker
is untouched, and no retry happens — the result is the same for every retry
budget and every behaviour of the operation. -/
theorem breaker_rejection_short_circuits (cfg : RetryConfig)
    (ops : Nat → TransportResult) (times : Nat → Nat) (b : CircuitBreaker)
    (hmax : 1 ≤ cfg.maxAttempts)
    (hrej : (b.permitCall (times 1)).2 = false) :
    execute cfg ops times b = (.circuitOpen, b, 0) := by
  obtain ⟨m, hm⟩ : ∃ m, cfg.maxAttempts = m + 1 :=
    ⟨cfg.maxAttempts - 1, by omega⟩
  have h1 := permitCall_rejected_eq b (times 1) hrej
  unfold execute
  rw [hm]
  simp [executeLoop, hrej, h1]

/-- Witness for C1: an Open breaker (openedAt 0, recoveryTimeout 60) at
instant 5 rejects, and the resilient call returns CircuitOpen with zero
transport invocations. -/
theorem breaker_rejection_short_circuits_witness :
    1 ≤ (⟨3, 1/2, 60, 2, true⟩ : RetryConfig).maxAttempts ∧
    ((⟨"ProductService", 5, 60, .Open 0, 5⟩ : CircuitBreaker).permitCall
      ((fun _ => 5) 1)).2 = false ∧
    execute ⟨3, 1/2, 60, 2, true⟩ (fun _ => .transient) (fun _ => 5)
        ⟨"ProductService", 5, 60, .Open 0, 5⟩ =
      (.circuitOpen, ⟨"ProductService", 5, 60, .Open 0, 5⟩, 0) :=
  ⟨by decide, by decide,
   breaker_rejection_short_circuits ⟨3, 1/2, 60, 2, true⟩
     (fun _ => .transient) (fun _ => 5)
     ⟨"ProductService", 5, 60, .Open 0, 5⟩ (by decide) (by decide)⟩

/-- C4: a call admitted by the breaker whose transport result is classified
permanent returns `PermanentFailure` on that same attempt (exactly one
transport invocation, no retry); `onFailure` is never fed, so the breaker
after the call is exactly the breaker after the `permitCall` decision, its
`failureCount` is unchanged, and when the breaker was Closed its entire
state is unchanged. -/
theorem permanent_failure_frame (cfg : RetryConfig)
    (ops : Nat → TransportResult) (times : Nat → Nat) (b : CircuitBreaker)
    (hmax : 1 ≤ cfg.maxAttempts) (hperm : ops 1 = .permanent)
    (hallow : (b.permitCall (times 1)).2 = true) :
    execute cfg ops times b =
        (.permanentFailure, (b.permitCall (times 1)).1, 1)
      ∧ (b.permitCall (times 1)).1.failureCount = b.failureCount
      ∧ (b.state = .Closed → (b.permitCall (times 1)).1 = b) := by
  obtain ⟨m, hm⟩ : ∃ m, cfg.maxAttempts = m + 1 :=
    ⟨cfg.maxAttempts - 1, by omega⟩
  refine ⟨?_, permitCall_failureCount b (times 1), fun hc => ?_⟩
  · unfold execute
    rw [hm]
    simp [executeLoop, hallow, hperm]
  · rw [permitCall_closed b (times 1) hc]

/-- Witness for C4: a Closed breaker with failureCount 2 sees an HTTP-404
style permanent failure on attempt 1; the outcome is PermanentFailure after
one transport invocation and the breaker is bit-for-bit unchanged. -/
theorem permanent_failure_frame_witness :
    1 ≤ (⟨3, 1/2, 60, 2, true⟩ : RetryConfig).maxAttempts ∧
    (fun _ : Nat => TransportResult.permanent) 1 = TransportResult.permanent ∧
    ((⟨"ProductService", 5, 60, .Closed, 2⟩ : CircuitBreaker).permitCall
      ((fun _ => 0) 1)).2 = true ∧
    (execute ⟨3, 1/2, 60, 2, true⟩ (fun _ => .permanent) (fun _ => 0)
        ⟨"ProductService", 5, 60, .Closed, 2⟩ =
        (.permanentFailure, ⟨"ProductService", 5, 60, .Closed, 2⟩, 1)
      ∧ (2 : Nat) = 2
      ∧ ((⟨"ProductService", 5, 60, .Closed, 2⟩ : CircuitBreaker).state
            = .Closed →
          (⟨"ProductService", 5, 60, .Closed, 2⟩ : CircuitBreaker)
            = ⟨"ProductService", 5, 60, .Closed, 2⟩)) :=
  by
  refine ⟨by decide, rfl, by decide, ?_⟩
  exact permanent_failure_frame ⟨3, 1/2, 60, 2, true⟩
    (fun _ => .permanent) (fun _ => 0)
    ⟨"ProductService", 5, 60, .Closed, 2⟩ (by decide) rfl (by decide)

/-- A run of consecutive transient failures from a Closed breaker: when the
failure count plus the number of calls reaches the threshold, the final call
trips the breaker to Open stamped with that call's instant; the configured
`recoveryTimeout` is untouched throughout. -/
lemma runCalls_transient_opens (ts : List Nat) (tlast : Nat) :
    ∀ b : CircuitBreaker, b.state = .Closed →
      b.failureCount + (ts.length + 1) = b.failureThreshold →
      ((runCalls b
          ((ts ++ [tlast]).map (fun t => (t, TransportResult.transient)))).1.state
          = .Open tlast
        ∧ (runCalls b
            ((ts ++ [tlast]).map
              (fun t => (t, TransportResult.transient)))).1.recoveryTimeout
          = b.recoveryTimeout) := by
  induction ts with
  | nil =>
      intro b hC hcount
      have h1 : b.failureThreshold ≤ b.failureCount + 1 := by
        simp at hcount; omega
      simp only [List.nil_append, List.map, runCalls, callOnce,
        permitCall_closed b tlast hC]
      simp [CircuitBreaker.onFailure, hC, h1]
  | cons t rest ih =>
      intro b hC hcount
      have hlt : ¬ b.failureThreshold ≤ b.failureCount + 1 := by
        simp at hcount; omega
      have hcall : (callOnce b t .transient).2.1 =
          { b with failureCount := b.failureCount + 1 } := by
        unfold callOnce
        rw [permitCall_closed b t hC]
        simp [CircuitBreaker.onFailure, hC, hlt]
      simp only [List.cons_append, List.map, runCalls]
      rw [hcall]
      have := ih { b with failureCount := b.failureCount + 1 }
        (by simpa using hC) (by simp at hcount ⊢; omega)
      simpa using this

/-- A call on an Open breaker before its recovery timeout has elapsed is
rejected: CircuitOpen outcome, breaker unchanged, no transport invocation. -/
lemma callOnce_open_rejected (b' : CircuitBreaker) (tlast now : Nat)
    (hstate : b'.state = .Open tlast)
    (hnow : now < tlast + b'.recoveryTimeout) (r : TransportResult) :
    callOnce b' now r = (.circuitOpen, b', 0) := by
  have hperm : b'.permitCall now = (b', false) := by
    unfold CircuitBreaker.permitCall
    rw [hstate]
    have hno : ¬ tlast + b'.recoveryTimeout ≤ now := by omega
    simp [hno]
  unfold callOnce
  rw [hperm]
  rfl

/-- A whole sequence of calls on an Open breaker, all before its recovery
timeout has elapsed, leaves the breaker unchanged and never invokes the
transport operation. -/
lemma runCalls_open_rejected (b' : CircuitBreaker) (tlast : Nat)
    (hstate : b'.state = .Open tlast) :
    ∀ calls : List (Nat × TransportResult),
      (∀ c ∈ calls, c.1 < tlast + b'.recoveryTimeout) →
      runCalls b' calls = (b', 0) := by
  intro calls
  induction calls with
  | nil => intro _; rfl
  | cons c rest ih =>
      intro hall
      obtain ⟨t, r⟩ := c
      have h1 : callOnce b' t r = (.circuitOpen, b', 0) :=
        callOnce_open_rejected b' tlast t hstate (hall (t, r) (by simp)) r
      have h2 : runCalls b' rest = (b', 0) :=
        ih (fun c hc => hall c (by simp [hc]))
      simp [runCalls, h1, h2]

/-- C5: once `failureThreshold` consecutive transient failures occur while
the breaker is Closed (with failure count 0), the breaker becomes Open
stamped with the final failure's instant, and every subsequent call — indeed
every sequence of subsequent calls — before `recoveryTimeout` has elapsed
returns the CircuitOpen outcome without the transport operation being
invoked (the invocation count stays 0) and without changing the breaker. -/
theorem breaker_opens_then_rejects (b : CircuitBreaker) (ts : List Nat)
    (tlast : Nat) (hC : b.state = .Closed) (h0 : b.failureCount = 0)
    (hthr : ts.length + 1 = b.failureThreshold) :
    (runCalls b
        ((ts ++ [tlast]).map (fun t => (t, TransportResult.transient)))).1.state
      = .Open tlast
    ∧ (∀ (now : Nat) (r : TransportResult),
        now < tlast + b.recoveryTimeout →
        callOnce (runCalls b
            ((ts ++ [tlast]).map (fun t => (t, TransportResult.transient)))).1
            now r
          = (.circuitOpen,
             (runCalls b
               ((ts ++ [tlast]).map
                 (fun t => (t, TransportResult.transient)))).1,
             0))
    ∧ (∀ calls : List (Nat × TransportResult),
        (∀ c ∈ calls, c.1 < tlast + b.recoveryTimeout) →
        runCalls (runCalls b
            ((ts ++ [tlast]).map (fun t => (t, TransportResult.transient)))).1
            calls
          = ((runCalls b
              ((ts ++ [tlast]).map
                (fun t => (t, TransportResult.transient)))).1,
             0)) := by
  obtain ⟨hstate, htime⟩ :=
    runCalls_transient_opens ts tlast b hC (by omega)
  set X := (runCalls b
    ((ts ++ [tlast]).map (fun t => (t, TransportResult.transient)))).1 with hX
  have hlt : ∀ now : Nat,
      now < tlast + b.recoveryTimeout → now < tlast + X.recoveryTimeout := by
    intro now h
    rw [htime]
    exact h
  exact ⟨hstate,
    fun now r hnow =>
      callOnce_open_rejected X tlast now hstate (hlt now hnow) r,
    fun calls hall =>
      runCalls_open_rejected X tlast hstate calls
        (fun c hc => hlt c.1 (hall c hc))⟩

/-- Witness for C5: failureThreshold 2, transient failures at instants 3 and
5 open the breaker at 5; a call at instant 7 (recoveryTimeout 10) is
rejected with zero transport invocations. -/
theorem breaker_opens_then_rejects_witness :
    (⟨"CartService", 2, 10, .Closed, 0⟩ : CircuitBreaker).state = .Closed ∧
    (⟨"CartService", 2, 10, .Closed, 0⟩ : CircuitBreaker).failureCount = 0 ∧
    ([3] : List Nat).length + 1
      = (⟨"CartService", 2, 10, .Closed, 0⟩ : CircuitBreaker).failureThreshold ∧
    (7 : Nat) <
      5 + (⟨"CartService", 2, 10, .Closed, 0⟩ : CircuitBreaker).recoveryTimeout ∧
    (runCalls ⟨"CartService", 2, 10, .Closed, 0⟩
        (([3] ++ [5]).map (fun t => (t, TransportResult.transient)))).1.state
      = .Open 5 ∧
    callOnce (runCalls ⟨"CartService", 2, 10, .Closed, 0⟩
        (([3] ++ [5]).map (fun t => (t, TransportResult.transient)))).1
        7 (.success 0)
      = (.circuitOpen,
         (runCalls ⟨"CartService", 2, 10, .Closed, 0⟩
           (([3] ++ [5]).map (fun t => (t, TransportResult.transient)))).1,
         0) ∧
    runCalls (runCalls ⟨"CartService", 2, 10, .Closed, 0⟩
        (([3] ++ [5]).map (fun t => (t, TransportResult.transient)))).1
        [(7, .success 0), (9, .transient)]
      = ((runCalls ⟨"CartService", 2, 10, .Closed, 0⟩
          (([3] ++ [5]).map (fun t => (t, TransportResult.transient)))).1,
         0) := by
  have h := breaker_opens_then_rejects ⟨"CartService", 2, 10, .Closed, 0⟩
    [3] 5 rfl rfl (by decide)
  exact ⟨rfl, rfl, by decide, by decide, h.1, h.2.1 7 (.success 0) (by decide),
         h.2.2 [(7, .success 0), (9, .transient)] (by decide)⟩

/-- C2 counterexample: from process start, the cart service's
`get_product_client` and the order service's `get_product_client` each run
their own `CircuitBreaker(name="ProductService")` constructor, producing two
distinct breaker instances (identities 0 and 1) for the same downstream
dependency name — no process-wide registry hands out a shared instance. -/
theorem product_breaker_not_shared_cx :
    (CartService.get_product_client ClientState.init).2 = 0 ∧
    (OrderService.get_product_client
      (CartService.get_product_client ClientState.init).1).2 = 1 ∧
    (OrderService.get_product_client
        (CartService.get_product_client ClientState.init).1).1.breakers
      = [(0, "ProductService"), (1, "ProductService")] :=
  ⟨rfl, rfl, rfl⟩

/-- C2 amended: each service class holds a lazily created client singleton —
repeated `get_product_client` calls within the cart service return the same
breaker instance — but there is no registry shared across callers: the cart
service and the order service end up with two distinct CircuitBreaker
instances, both for the dependency name "ProductService". -/
theorem product_breaker_per_service (s : ClientState)
    (hc : s.cartProductClient = none) (ho : s.orderProductClient = none) :
    (CartService.get_product_client (CartService.get_product_client s).1).2
      = (CartService.get_product_client s).2
    ∧ (OrderService.get_product_client (CartService.get_product_client s).1).2
      ≠ (CartService.get_product_client s).2
    ∧ ((CartService.get_product_client s).2, "ProductService")
        ∈ (OrderService.get_product_client
            (CartService.get_product_client s).1).1.breakers
    ∧ ((OrderService.get_product_client
          (CartService.get_product_client s).1).2, "ProductService")
        ∈ (OrderService.get_product_client
            (CartService.get_product_client s).1).1.breakers := by
  simp only [CartService.get_product_client, OrderService.get_product_client,
    ClientState.newBreaker, hc, ho]
  refine ⟨by trivial, by simp, by simp, by simp⟩

/-- Witness for the amended C2 at the initial (process start) state. -/
theorem product_breaker_per_service_witness :
    ClientState.init.cartProductClient = none ∧
    ClientState.init.orderProductClient = none ∧
    ((CartService.get_product_client
        (CartService.get_product_client ClientState.init).1).2
      = (CartService.get_product_client ClientState.init).2
    ∧ (OrderService.get_product_client
        (CartService.get_product_client ClientState.init).1).2
      ≠ (CartService.get_product_client ClientState.init).2
    ∧ ((CartService.get_product_client ClientState.init).2, "ProductService")
        ∈ (OrderService.get_product_client
            (CartService.get_product_client ClientState.init).1).1.breakers
    ∧ ((OrderService.get_product_client
          (CartService.get_product_client ClientState.init).1).2,
        "ProductService")
        ∈ (OrderService.get_product_client
            (CartService.get_product_client ClientState.init).1).1.breakers) :=
  ⟨rfl, rfl, product_breaker_per_service ClientState.init rfl rfl⟩

/-- C3 counterexample: with a fresh Closed breaker and a transport whose
result is permanent (the HTTP 404 class), the resilient call's outcome is
PermanentFailure, yet `get_json` swallows it and hands its caller the
fallback dict instead of propagating the failure. -/
theorem get_json_replaces_permanent_cx :
    (execute ⟨3, 1/2, 60, 2, true⟩ (fun _ => .permanent) (fun _ => 0)
        ⟨"ProductService", 5, 60, .Closed, 0⟩).1 = .permanentFailure ∧
    get_json ⟨3, 1/2, 60, 2, true⟩ (fun _ => .permanent) (fun _ => 0)
        ⟨"ProductService", 5, 60, .Closed, 0⟩ = .fallbackDict :=
  ⟨rfl, rfl⟩

/-- C3 amended: `get_json` and `post_json` return the fallback dict on every
failure outcome of the resilient call — permanent failures included, not
only CircuitOpen and RetriesExhausted; a permanent failure therefore does
not propagate to their callers. -/
theorem json_helpers_fallback_on_any_failure (cfg : RetryConfig)
    (ops : Nat → TransportResult) (times : Nat → Nat) (b : CircuitBreaker)
    (h : (execute cfg ops times b).1 = .permanentFailure
       ∨ (execute cfg ops times b).1 = .circuitOpen
       ∨ (execute cfg ops times b).1 = .retriesExhausted) :
    get_json cfg ops times b = .fallbackDict
    ∧ post_json cfg ops times b = .fallbackDict := by
  rcases h with h | h | h <;>
    exact ⟨by unfold get_json; rw [h], by unfold post_json; rw [h]⟩

/-- Witness for the amended C3: a rejected call (Open breaker) yields the
fallback dict from both helpers. -/
theorem json_helpers_fallback_witness :
    ((execute ⟨2, 1/2, 60, 2, true⟩ (fun _ => .transient) (fun _ => 3)
        ⟨"AuthService-Gateway", 5, 60, .Open 0, 5⟩).1 = .permanentFailure
      ∨ (execute ⟨2, 1/2, 60, 2, true⟩ (fun _ => .transient) (fun _ => 3)
          ⟨"AuthService-Gateway", 5, 60, .Open 0, 5⟩).1 = .circuitOpen
      ∨ (execute ⟨2, 1/2, 60, 2, true⟩ (fun _ => .transient) (fun _ => 3)
          ⟨"AuthService-Gateway", 5, 60, .Open 0, 5⟩).1 = .retriesExhausted) ∧
    (get_json ⟨2, 1/2, 60, 2, true⟩ (fun _ => .transient) (fun _ => 3)
        ⟨"AuthService-Gateway", 5, 60, .Open 0, 5⟩ = .fallbackDict
    ∧ post_json ⟨2, 1/2, 60, 2, true⟩ (fun _ => .transient) (fun _ => 3)
        ⟨"AuthService-Gateway", 5, 60, .Open 0, 5⟩ = .fallbackDict) :=
  ⟨Or.inr (Or.inl rfl),
   json_helpers_fallback_on_any_failure ⟨2, 1/2, 60, 2, true⟩
     (fun _ => .transient) (fun _ => 3)
     ⟨"AuthService-Gateway", 5, 60, .Open 0, 5⟩ (Or.inr (Or.inl rfl))⟩

/-- C7 counterexample: when the auth call fails with a connection error but
the request body is non-empty and not valid JSON, the `register` fallback
handler's own `json.loads(body)` raises, so the handler propagates an
exception instead of returning the demo body — the returned value is not a
fallback-marked body. -/
theorem register_malformed_raises_cx :
    register (.malformed "not json") (.error "All connection attempts failed")
      = .raised "JSONDecodeError" ∧
    (register (.malformed "not json")
        (.error "All connection attempts failed")).isFallback = false :=
  ⟨rfl, rfl⟩

/-- C7 amended: for every exception raised by the auth-service call,
`get_me` returns the hardcoded demo body marked fallback=True
unconditionally, and `register` returns it exactly when the request body is
empty or a valid JSON object whose `firebase_id_token` field is absent, a
string, or an array (the sliceable values); with any other body the
fallback construction itself raises — JSONDecodeError on malformed JSON,
AttributeError on valid non-object JSON, TypeError on an unsubscriptable
token value — and that failure propagates instead of a fallback body. -/
theorem auth_routes_fallback_amended (e s t raw d dv : String) :
    (register .empty (.error e)).isFallback = true
    ∧ (register (.valid (.obj none)) (.error e)).isFallback = true
    ∧ (register (.valid (.obj (some (.str s)))) (.error e)).isFallback = true
    ∧ (register (.valid (.obj (some (.arr t)))) (.error e)).isFallback = true
    ∧ (get_me none (.error e)).isFallback = true
    ∧ register (.malformed raw) (.error e) = .raised "JSONDecodeError"
    ∧ register (.valid (.nonObject d)) (.error e) = .raised "AttributeError"
    ∧ register (.valid (.obj (some (.other dv)))) (.error e)
      = .raised "TypeError" :=
  ⟨rfl, rfl, rfl, rfl, rfl, rfl, rfl, rfl⟩

/-- C8: once `create_order` has fetched a non-empty cart (status 200) and
committed the order row and items, it returns the created order response —
total from the cart, delivery fee 20 under a 199 total and 0 otherwise —
regardless of whether the post-commit cart-clear call or the
order-confirmation notification call raises; those failures never undo the
commit or change the returned result. -/
theorem create_order_survives_downstream_failures (uid : Nat)
    (cart : CartSnapshot) (clearCart notify : Except String Unit)
    (hne : cart.items ≠ []) :
    (OrderService.create_order uid (.ok (200, cart)) clearCart notify).result
      = .ok ⟨uid, cart.total_amount,
             if cart.total_amount < 199 then 20 else 0⟩
    ∧ (OrderService.create_order uid
        (.ok (200, cart)) clearCart notify).committed = true
    ∧ (OrderService.create_order uid (.ok (200, cart)) clearCart notify).result
      = (OrderService.create_order uid (.ok (200, cart))
          (.ok ()) (.ok ())).result := by
  unfold OrderService.create_order
  simp [hne]

/-- Witness for C8: a one-item cart with total 100; both the cart-clear and
the notification call fail, yet the committed order (delivery fee 20) is
returned. -/
theorem create_order_survives_witness :
    ((⟨[(1, 2, 50)], 100⟩ : CartSnapshot).items ≠ []) ∧
    ((OrderService.create_order 7 (.ok (200, ⟨[(1, 2, 50)], 100⟩))
        (.error "connection refused") (.error "timeout")).result
      = .ok ⟨7, 100, if (100 : ℚ) < 199 then 20 else 0⟩
    ∧ (OrderService.create_order 7 (.ok (200, ⟨[(1, 2, 50)], 100⟩))
        (.error "connection refused") (.error "timeout")).committed = true
    ∧ (OrderService.create_order 7 (.ok (200, ⟨[(1, 2, 50)], 100⟩))
        (.error "connection refused") (.error "timeout")).result
      = (OrderService.create_order 7 (.ok (200, ⟨[(1, 2, 50)], 100⟩))
          (.ok ()) (.ok ())).result) := by
  refine ⟨by simp, ?_⟩
  exact create_order_survives_downstream_failures 7 ⟨[(1, 2, 50)], 100⟩
    (.error "connection refused") (.error "timeout") (by simp)

/-- C9: when the product-existence check of `add_item` raises an exception
whose message contains "Circuit breaker", the item is added to the cart
anyway; when it raises any other exception (timeouts and connection errors
included), `add_item` raises HTTP 404 "Product not found" rather than a
service-unavailable error. -/
theorem add_item_circuit_breaker_graceful (msg : String)
    (items : CartItems) (it : CartItemCreate) :
    (strContains msg "Circuit breaker" = true →
      CartService.add_item (.error msg) items it = .ok (addItemRows items it))
    ∧ (strContains msg "Circuit breaker" = false →
      CartService.add_item (.error msg) items it
        = .error (404, "Product not found")) := by
  refine ⟨fun h => ?_, fun h => ?_⟩ <;> simp [CartService.add_item, h]

/-- Witness for C9: a breaker-open message lets the item through (appended
row); a plain timeout message yields 404 "Product not found". -/
theorem add_item_circuit_breaker_graceful_witness :
    CartService.add_item
        (.error "Circuit breaker is OPEN for ProductService") [(1, 1)] ⟨2, 3⟩
      = .ok [(1, 1), (2, 3)]
    ∧ CartService.add_item (.error "Connection timeout") [(1, 1)] ⟨2, 3⟩
      = .error (404, "Product not found") := by
  exact ⟨(add_item_circuit_breaker_graceful
            "Circuit breaker is OPEN for ProductService" [(1, 1)] ⟨2, 3⟩).1
           (by decide),
         (add_item_circuit_breaker_graceful
            "Connection timeout" [(1, 1)] ⟨2, 3⟩).2 (by decide)⟩

end GroFast
